import Mathlib

/-!
Shallow embedding of the Linera execution dispatcher
(`linera-execution/src/execution.rs`): the `ExecutionStateView` entry points
`execute_operation`, `execute_effect`, `query_application` and the shared
helper `run_user_action`.

Modelling conventions:
* Machine integers and opaque identifiers (`ChainId`, `UserApplicationId`,
  `Destination`, session ids, byte strings) are modelled as `Nat` /
  `List Nat`.
* External collaborators that are not part of the source fragment (the
  application registry, the bytecode loader, the system sub-application and
  the user application code itself, reached through the `ExecutionRuntime`)
  are modelled as function fields of an environment record `Env`; user
  application entry points are arbitrary transformers of the shared runtime
  state, which is what the runtime hands them.
* Rust `&mut self` mutation becomes explicit state passing: every entry
  point returns the final `ExecutionStateView` together with an `Outcome`.
* A Rust `assert_eq!` failure is a panic, not a recoverable error; it is
  modelled by the distinguished outcome `Outcome.fatal`, while `Err(_)` from
  `?` / `ensure!` becomes `Outcome.err`.
-/

/-- Chain identifiers, modelled as natural numbers. -/
abbrev ChainId : Type := Nat

/-- User application identifiers, modelled as natural numbers. -/
abbrev UserApplicationId : Type := Nat

/-- Destinations of effects (recipient chains / channels), modelled opaquely. -/
abbrev Destination : Type := Nat

/-- Byte strings (operation/effect/query payloads, register contents). -/
abbrev Bytes : Type := List Nat

/-- `ApplicationId`: variant over the system application and user applications. -/
inductive ApplicationId where
  | System : ApplicationId
  | User : UserApplicationId → ApplicationId
deriving DecidableEq

/-- Modelled from the spec: `ApplicationDescription` (not in the source
fragment; the registry is an external collaborator) — bytecode reference,
initialization argument and dependency list. -/
structure ApplicationDescription where
  bytecode_id : Nat
  initialization_argument : Bytes
  required_application_ids : List UserApplicationId
deriving DecidableEq

/-- Modelled from the spec: the system effects; the source fragment only
constructs `SystemEffect::RegisterApplications { applications }`; other
system effects are opaque. -/
inductive SystemEffect where
  | RegisterApplications : List ApplicationDescription → SystemEffect
  | Other : Nat → SystemEffect
deriving DecidableEq

/-- `RawExecutionResult`: an ordered sequence of (destination, effect) pairs,
generic over the effect type (system effects vs. user effect payloads). -/
structure RawExecutionResult (E : Type) where
  effects : List (Destination × E)
deriving DecidableEq

instance (E : Type) : Inhabited (RawExecutionResult E) := ⟨⟨[]⟩⟩

/-- `ExecutionResult`: variant {System, User} over raw results. -/
inductive ExecutionResult where
  | System : RawExecutionResult SystemEffect → ExecutionResult
  | User : UserApplicationId → RawExecutionResult Bytes → ExecutionResult
deriving DecidableEq

/-- Operation payloads: a system operation (opaque) or user bytes. -/
inductive Operation where
  | System : Nat → Operation
  | User : Bytes → Operation
deriving DecidableEq

/-- Effect payloads: a system effect or user bytes. -/
inductive Effect where
  | System : SystemEffect → Effect
  | User : Bytes → Effect
deriving DecidableEq

/-- Query payloads: a system query (opaque) or user bytes. -/
inductive Query where
  | System : Nat → Query
  | User : Bytes → Query
deriving DecidableEq

/-- Responses: a system response (opaque) or user bytes. -/
inductive Response where
  | System : Nat → Response
  | User : Bytes → Response
deriving DecidableEq

/-- Modelled from the spec: call contexts are immutable and carry the
originating chain id (the other fields are irrelevant to the dispatcher
fragment). -/
structure OperationContext where
  chain_id : ChainId
deriving DecidableEq

/-- Modelled from the spec: effect contexts carry the originating chain id. -/
structure EffectContext where
  chain_id : ChainId
deriving DecidableEq

/-- Modelled from the spec: query contexts carry the originating chain id. -/
structure QueryContext where
  chain_id : ChainId
deriving DecidableEq

/-- Execution errors of the dispatcher. The source fragment names
`InvalidOperation`, `InvalidEffect`, `InvalidQuery` and `SessionWasNotClosed`;
resolution, load and application-defined errors are opaque extra variants. -/
inductive ExecutionError where
  | InvalidOperation : ExecutionError
  | InvalidEffect : ExecutionError
  | InvalidQuery : ExecutionError
  | SessionWasNotClosed : ExecutionError
  | ApplicationResolution : Nat → ExecutionError
  | Load : Nat → ExecutionError
  | UserError : Nat → ExecutionError
deriving DecidableEq

/-- `SessionManager`: table of outstanding session states, keyed by session
id. `SessionManager::default()` is the empty table. -/
structure SessionManager where
  states : List (Nat × Bytes)
deriving DecidableEq

instance : Inhabited SessionManager := ⟨⟨[]⟩⟩

/-- `ExecutionStateView`: system sub-state (opaque, collaborator-managed)
plus per-user-application byte registers, plus the chain id provided by the
view context (`self.context().extra().chain_id()`). -/
structure ExecutionStateView where
  chain_id : ChainId
  system : Nat
  users : List (UserApplicationId × Bytes)
deriving DecidableEq

/-- The mutable data shared between `run_user_action` / `query_application`
and the invoked application code through the `ExecutionRuntime`: the
application-id call stack, the execution state, the session manager and the
results accumulator. -/
structure RuntimeState where
  chain_id : ChainId
  application_ids : List UserApplicationId
  state : ExecutionStateView
  session_manager : SessionManager
  results : List ExecutionResult
deriving DecidableEq

/-- A user application's executable handle: each entry point receives its
context, the shared runtime state and its payload, and returns the mutated
runtime state together with a raw result (or response) or an error.
The application (together with the runtime servicing its nested calls) is
external code, hence an arbitrary state transformer.  (`init` models the
initialization entry point; its source name is a Lean keyword.) -/
structure UserApplication where
  init : OperationContext → RuntimeState → Bytes →
    RuntimeState × Except ExecutionError (RawExecutionResult Bytes)
  execute_operation : OperationContext → RuntimeState → Bytes →
    RuntimeState × Except ExecutionError (RawExecutionResult Bytes)
  execute_effect : EffectContext → RuntimeState → Bytes →
    RuntimeState × Except ExecutionError (RawExecutionResult Bytes)
  query_application : QueryContext → RuntimeState → Bytes →
    RuntimeState × Except ExecutionError Bytes

/-- The collaborators of the dispatcher: the application registry
(`describe_application`, `describe_application_with_dependencies`), the
loader (`get_user_application`) and the system sub-application's three
entry points (state-passing over the opaque system sub-state). -/
structure Env where
  describe_application :
    UserApplicationId → Except ExecutionError ApplicationDescription
  describe_application_with_dependencies :
    UserApplicationId → Except ExecutionError (List ApplicationDescription)
  get_user_application :
    ApplicationDescription → Except ExecutionError UserApplication
  system_execute_operation : OperationContext → Nat → Nat →
    Nat × Except ExecutionError
      (RawExecutionResult SystemEffect × Option UserApplicationId)
  system_execute_effect : EffectContext → SystemEffect → Nat →
    Nat × Except ExecutionError (RawExecutionResult SystemEffect)
  system_query_application : QueryContext → Nat → Nat →
    Nat × Except ExecutionError Nat

/-- The outcome of a dispatcher call: a normal return value, a recoverable
error (Rust `Err`), or a fatal assertion failure (Rust panic from
`assert_eq!`). -/
inductive Outcome (α : Type) where
  | ok : α → Outcome α
  | err : ExecutionError → Outcome α
  | fatal : Outcome α
deriving DecidableEq

/-- Whether an outcome is a normal return. -/
def Outcome.isOk {α : Type} : Outcome α → Bool
  | .ok _ => true
  | _ => false

/-- `UserAction`: the three actions `run_user_action` dispatches on. -/
inductive UserAction where
  | Initialize : OperationContext → UserAction
  | Operation : OperationContext → Bytes → UserAction
  | Effect : EffectContext → Bytes → UserAction
deriving DecidableEq

/-- The resolution + load + invocation prefix of `run_user_action`: resolve
the description, load the application, build the fresh runtime state
(`session_manager = default`, `results = []`,
`application_ids = vec![application_id]`) and invoke the entry point
matching the action.  `Except.error` if resolution or loading fails;
otherwise the runtime state and result the application call returned. -/
def invokeAction (env : Env) (st : ExecutionStateView)
    (application_id : UserApplicationId) (chain_id : ChainId)
    (action : UserAction) :
    Except ExecutionError
      (RuntimeState × Except ExecutionError (RawExecutionResult Bytes)) :=
  match env.describe_application application_id with
  | .error e => .error e
  | .ok application_description =>
    match env.get_user_application application_description with
    | .error e => .error e
    | .ok application =>
      let rs : RuntimeState :=
        ⟨chain_id, [application_id], st, default, []⟩
      match action with
      | .Initialize context =>
        .ok (application.init context rs
          application_description.initialization_argument)
      | .Operation context operation =>
        .ok (application.execute_operation context rs operation)
      | .Effect context effect =>
        .ok (application.execute_effect context rs effect)

/-- `run_user_action` (execution.rs:100-179): resolve and load the
application, run it on a fresh runtime, assert the application-id stack is
still `[application_id]`, synthesize one `RegisterApplications` system
effect per user effect (batched into one `System` result pushed before the
`User` result, only when non-empty), and fail with `SessionWasNotClosed` if
the session manager is non-empty. -/
def run_user_action (env : Env) (st : ExecutionStateView)
    (application_id : UserApplicationId) (chain_id : ChainId)
    (action : UserAction) :
    ExecutionStateView × Outcome (List ExecutionResult) :=
  match invokeAction env st application_id chain_id action with
  | .error e => (st, .err e)
  | .ok (rs, callResult) =>
    match callResult with
    | .error e => (rs.state, .err e)
    | .ok result =>
      if rs.application_ids = [application_id] then
        match env.describe_application_with_dependencies application_id with
        | .error e => (rs.state, .err e)
        | .ok applications =>
          let system_result : RawExecutionResult SystemEffect :=
            ⟨result.effects.map (fun p =>
              (p.1, SystemEffect.RegisterApplications applications))⟩
          let results :=
            (if system_result.effects.isEmpty then rs.results
             else rs.results ++ [ExecutionResult.System system_result])
            ++ [ExecutionResult.User application_id result]
          if rs.session_manager.states.isEmpty then
            (rs.state, .ok results)
          else
            (rs.state, .err .SessionWasNotClosed)
      else
        (rs.state, .fatal)

/-- `execute_operation` (execution.rs:181-211): assert the context chain id
equals the state's chain id; dispatch on (application kind, operation kind);
the (System, System) arm delegates to the system sub-application and, when a
new application id is reported, appends the results of running its
`Initialize` action; the (User, User) arm delegates to `run_user_action`;
mismatches fail with `InvalidOperation`. -/
def execute_operation (env : Env) (st : ExecutionStateView)
    (application_id : ApplicationId) (context : OperationContext)
    (operation : Operation) :
    ExecutionStateView × Outcome (List ExecutionResult) :=
  if context.chain_id = st.chain_id then
    match application_id, operation with
    | .System, .System op =>
      match env.system_execute_operation context op st.system with
      | (sys, .error e) => ({ st with system := sys }, .err e)
      | (sys, .ok (result, new_application)) =>
        let st1 : ExecutionStateView := { st with system := sys }
        let results := [ExecutionResult.System result]
        match new_application with
        | none => (st1, .ok results)
        | some new_id =>
          match run_user_action env st1 new_id context.chain_id
              (.Initialize context) with
          | (st2, .ok rs) => (st2, .ok (results ++ rs))
          | (st2, .err e) => (st2, .err e)
          | (st2, .fatal) => (st2, .fatal)
    | .User application_id, .User operation =>
      run_user_action env st application_id context.chain_id
        (.Operation context operation)
    | _, _ => (st, .err .InvalidOperation)
  else
    (st, .fatal)

/-- `execute_effect` (execution.rs:213-235): same pairing discipline as
`execute_operation`; system effects never spawn applications; mismatches
fail with `InvalidEffect`. -/
def execute_effect (env : Env) (st : ExecutionStateView)
    (application_id : ApplicationId) (context : EffectContext)
    (effect : Effect) :
    ExecutionStateView × Outcome (List ExecutionResult) :=
  if context.chain_id = st.chain_id then
    match application_id, effect with
    | .System, .System eff =>
      match env.system_execute_effect context eff st.system with
      | (sys, .error e) => ({ st with system := sys }, .err e)
      | (sys, .ok result) =>
        ({ st with system := sys }, .ok [ExecutionResult.System result])
    | .User application_id, .User effect =>
      run_user_action env st application_id context.chain_id
        (.Effect context effect)
    | _, _ => (st, .err .InvalidEffect)
  else
    (st, .fatal)

/-- The resolution + load + invocation prefix of the user arm of
`query_application`: resolve, load, build the fresh runtime state and run
the application's query entry point. -/
def invokeQuery (env : Env) (st : ExecutionStateView)
    (application_id : UserApplicationId) (context : QueryContext)
    (query : Bytes) :
    Except ExecutionError (RuntimeState × Except ExecutionError Bytes) :=
  match env.describe_application application_id with
  | .error e => .error e
  | .ok application_description =>
    match env.get_user_application application_description with
    | .error e => .error e
    | .ok application =>
      let rs : RuntimeState :=
        ⟨context.chain_id, [application_id], st, default, []⟩
      .ok (application.query_application context rs query)

/-- `query_application` (execution.rs:237-281): assert the context chain id
equals the state's chain id; the (System, System) arm delegates to the
system sub-application; the (User, User) arm resolves and loads the
application, runs its query on a fresh runtime, asserts the application-id
stack is still `[application_id]` and returns `Response::User`; mismatches
fail with `InvalidQuery`.  Note: unlike `run_user_action`, this path never
checks that the session manager is empty. -/
def query_application (env : Env) (st : ExecutionStateView)
    (application_id : ApplicationId) (context : QueryContext)
    (query : Query) :
    ExecutionStateView × Outcome Response :=
  if context.chain_id = st.chain_id then
    match application_id, query with
    | .System, .System q =>
      match env.system_query_application context q st.system with
      | (sys, .error e) => ({ st with system := sys }, .err e)
      | (sys, .ok response) =>
        ({ st with system := sys }, .ok (Response.System response))
    | .User application_id, .User query =>
      match invokeQuery env st application_id context query with
      | .error e => (st, .err e)
      | .ok (rs, callResult) =>
        match callResult with
        | .error e => (rs.state, .err e)
        | .ok response =>
          if rs.application_ids = [application_id] then
            (rs.state, .ok (Response.User response))
          else
            (rs.state, .fatal)
    | _, _ => (st, .err .InvalidQuery)
  else
    (st, .fatal)

/-! ## Concrete fixtures for witnesses and counterexamples -/

/-- A sample description of user application `5`: no dependencies. -/
def descA : ApplicationDescription := ⟨0, [9], []⟩

/-- A sample well-behaved application: one effect to destination `1` on
operations, no effects otherwise, no sessions left open on operations or
effects; its query entry point opens a session without closing it and
appends a stray sub-result to the accumulator. -/
def appA : UserApplication :=
  ⟨fun _ rs _ => (rs, .ok ⟨[]⟩),
   fun _ rs _ => (rs, .ok ⟨[(1, [42])]⟩),
   fun _ rs _ => (rs, .ok ⟨[]⟩),
   fun _ rs _ =>
     ({ rs with
        session_manager := ⟨[(0, [])]⟩,
        results := rs.results ++ [ExecutionResult.User 5 ⟨[(2, [3])]⟩] },
      .ok [7])⟩

/-- An application that opens a session without closing it during
operations and effects. -/
def appLeak : UserApplication :=
  ⟨fun _ rs _ => (rs, .ok ⟨[]⟩),
   fun _ rs _ => ({ rs with session_manager := ⟨[(3, [8])]⟩ }, .ok ⟨[(1, [42])]⟩),
   fun _ rs _ => ({ rs with session_manager := ⟨[(3, [8])]⟩ }, .ok ⟨[]⟩),
   fun _ rs _ => (rs, .ok [7])⟩

/-- An application whose every entry point fails with an application error. -/
def appFail : UserApplication :=
  ⟨fun _ rs _ => (rs, .error (.UserError 3)),
   fun _ rs _ => (rs, .error (.UserError 3)),
   fun _ rs _ => (rs, .error (.UserError 3)),
   fun _ rs _ => (rs, .error (.UserError 3))⟩

/-- A sample registry/loader/system environment hosting `appA` as user
application `5` (with no dependencies); the system operation `100` reports
newly created application `5`, other system operations report none. -/
def envA : Env :=
  ⟨fun i => if i = 5 then .ok descA else .error (.ApplicationResolution 0),
   fun i => if i = 5 then .ok [descA] else .error (.ApplicationResolution 1),
   fun _ => .ok appA,
   fun _ op sys =>
     (sys + 1, .ok (⟨[(0, SystemEffect.Other op)]⟩,
       if op = 100 then some 5 else none)),
   fun _ _ sys => (sys, .ok ⟨[]⟩),
   fun _ q sys => (sys, .ok q)⟩

/-- Like `envA` but hosting the session-leaking `appLeak`. -/
def envLeak : Env :=
  ⟨fun i => if i = 5 then .ok descA else .error (.ApplicationResolution 0),
   fun i => if i = 5 then .ok [descA] else .error (.ApplicationResolution 1),
   fun _ => .ok appLeak,
   fun _ op sys =>
     (sys + 1, .ok (⟨[(0, SystemEffect.Other op)]⟩,
       if op = 100 then some 5 else none)),
   fun _ _ sys => (sys, .ok ⟨[]⟩),
   fun _ q sys => (sys, .ok q)⟩

/-- Like `envA` but hosting the always-failing `appFail`. -/
def envFail : Env :=
  ⟨fun i => if i = 5 then .ok descA else .error (.ApplicationResolution 0),
   fun i => if i = 5 then .ok [descA] else .error (.ApplicationResolution 1),
   fun _ => .ok appFail,
   fun _ op sys =>
     (sys + 1, .ok (⟨[(0, SystemEffect.Other op)]⟩,
       if op = 100 then some 5 else none)),
   fun _ _ sys => (sys, .ok ⟨[]⟩),
   fun _ q sys => (sys, .ok q)⟩

/-- A sample execution state on chain `0`. -/
def stA : ExecutionStateView := ⟨0, 0, []⟩

/-! ## Helper lemmas -/

/-- Success shape of `run_user_action`: when resolution, loading and the
application call succeed, the stack is restored, the dependency query
succeeds and all sessions are closed, the output appends (after any
accumulated sub-results) the synthesized `System` result — one
`RegisterApplications` effect per user effect, at the user effect's
destination — when there is at least one user effect, followed by the
`User` result. -/
theorem run_user_action_ok (env : Env) (st : ExecutionStateView)
    (a : UserApplicationId) (cid : ChainId) (action : UserAction)
    (rs : RuntimeState) (result : RawExecutionResult Bytes)
    (apps : List ApplicationDescription)
    (hinv : invokeAction env st a cid action = .ok (rs, .ok result))
    (hstack : rs.application_ids = [a])
    (hdeps : env.describe_application_with_dependencies a = .ok apps)
    (hsess : rs.session_manager.states = []) :
    run_user_action env st a cid action =
      (rs.state, .ok ((if result.effects.isEmpty then rs.results
        else rs.results ++ [ExecutionResult.System ⟨result.effects.map (fun p =>
          (p.1, SystemEffect.RegisterApplications apps))⟩])
        ++ [ExecutionResult.User a result])) := by
  unfold run_user_action
  rw [hinv]
  simp only [hstack, hdeps, hsess, if_pos rfl]
  cases h : result.effects with
  | nil => simp [h]
  | cons x xs => simp [h]

/-- A list that is not `[]` has `isEmpty = false`. -/
theorem isEmpty_false_of_ne_nil {α : Type} {l : List α} (h : l ≠ []) :
    l.isEmpty = false := by
  cases l with
  | nil => exact absurd rfl h
  | cons x xs => rfl

/-! ## Claim theorems -/

/-- Claim C1: every successful user-application call that produces at least
one effect outputs a `System` result immediately before the `User` result,
holding one `RegisterApplications` effect per user effect, each at the same
destination as the corresponding user effect and each carrying the
application set returned by `describe_application_with_dependencies` (self
plus transitive dependencies); with no user effects, no `System` result is
synthesized. -/
theorem run_user_action_register_applications (env : Env)
    (st : ExecutionStateView) (a : UserApplicationId) (cid : ChainId)
    (action : UserAction) (rs : RuntimeState)
    (result : RawExecutionResult Bytes) (apps : List ApplicationDescription)
    (hinv : invokeAction env st a cid action = .ok (rs, .ok result))
    (hstack : rs.application_ids = [a])
    (hdeps : env.describe_application_with_dependencies a = .ok apps)
    (hsess : rs.session_manager.states = []) :
    (result.effects ≠ [] →
      run_user_action env st a cid action =
        (rs.state, .ok (rs.results ++
          [ExecutionResult.System ⟨result.effects.map (fun p =>
             (p.1, SystemEffect.RegisterApplications apps))⟩,
           ExecutionResult.User a result]))) ∧
    (result.effects = [] →
      run_user_action env st a cid action =
        (rs.state, .ok (rs.results ++ [ExecutionResult.User a result]))) := by
  have hok := run_user_action_ok env st a cid action rs result apps
    hinv hstack hdeps hsess
  constructor
  · intro hne
    rw [hok, isEmpty_false_of_ne_nil hne]
    simp
  · intro he
    rw [hok, he]
    simp

/-- Witness for C1: both branches at a concrete environment. -/
theorem run_user_action_register_applications_witness :
    run_user_action envA stA 5 0 (.Operation ⟨0⟩ [3]) =
      (stA, .ok [ExecutionResult.System
          ⟨[(1, SystemEffect.RegisterApplications [descA])]⟩,
        ExecutionResult.User 5 ⟨[(1, [42])]⟩]) ∧
    run_user_action envA stA 5 0 (.Effect ⟨0⟩ [2]) =
      (stA, .ok [ExecutionResult.User 5 ⟨[]⟩]) := by
  constructor
  · have h := run_user_action_register_applications envA stA 5 0
      (.Operation ⟨0⟩ [3]) ⟨0, [5], stA, ⟨[]⟩, []⟩ ⟨[(1, [42])]⟩ [descA]
      rfl rfl rfl rfl
    simpa using h.1 (by decide)
  · have h := run_user_action_register_applications envA stA 5 0
      (.Effect ⟨0⟩ [2]) ⟨0, [5], stA, ⟨[]⟩, []⟩ ⟨[]⟩ [descA]
      rfl rfl rfl rfl
    simpa using h.2 rfl

/-- Counterexample for C2: the user arm of `query_application` performs no
session-emptiness check.  Here application `5` opens a session (id `0`) and
never closes it during the query — the runtime state it returns has a
non-empty session table — yet the top-level query succeeds with
`Response.User [7]` instead of failing with `SessionWasNotClosed`. -/
theorem query_session_leak_counterexample :
    invokeQuery envA stA 5 ⟨0⟩ [1] =
      .ok (⟨0, [5], stA, ⟨[(0, [])]⟩,
        [ExecutionResult.User 5 ⟨[(2, [3])]⟩]⟩, .ok [7]) ∧
    query_application envA stA (.User 5) ⟨0⟩ (.User [1]) =
      (stA, .ok (Response.User [7])) :=
  ⟨rfl, rfl⟩

/-- Claim C2 as amended: for `execute_operation` and `execute_effect`
top-level calls whose invoked user application leaves a session open, the
call fails with `SessionWasNotClosed` and yields no successful user result
(`query_application` performs no such check). -/
theorem session_not_closed_fails_operation_effect (env : Env)
    (st : ExecutionStateView) (a : UserApplicationId)
    (octx : OperationContext) (ectx : EffectContext) (opb effb : Bytes)
    (rs1 rs2 : RuntimeState) (r1 r2 : RawExecutionResult Bytes)
    (apps : List ApplicationDescription)
    (ho : octx.chain_id = st.chain_id) (he : ectx.chain_id = st.chain_id)
    (hi1 : invokeAction env st a octx.chain_id (.Operation octx opb) =
      .ok (rs1, .ok r1))
    (hs1 : rs1.application_ids = [a])
    (hd : env.describe_application_with_dependencies a = .ok apps)
    (hn1 : rs1.session_manager.states ≠ [])
    (hi2 : invokeAction env st a ectx.chain_id (.Effect ectx effb) =
      .ok (rs2, .ok r2))
    (hs2 : rs2.application_ids = [a])
    (hn2 : rs2.session_manager.states ≠ []) :
    execute_operation env st (.User a) octx (.User opb) =
      (rs1.state, .err .SessionWasNotClosed) ∧
    execute_effect env st (.User a) ectx (.User effb) =
      (rs2.state, .err .SessionWasNotClosed) := by
  constructor
  · rw [ho] at hi1
    simp only [execute_operation, ho, if_pos]
    unfold run_user_action
    rw [hi1]
    simp [hs1, hd, isEmpty_false_of_ne_nil hn1]
  · rw [he] at hi2
    simp only [execute_effect, he, if_pos]
    unfold run_user_action
    rw [hi2]
    simp [hs2, hd, isEmpty_false_of_ne_nil hn2]

/-- Witness for the amended C2: a concrete session-leaking application. -/
theorem session_not_closed_fails_operation_effect_witness :
    execute_operation envLeak stA (.User 5) ⟨0⟩ (.User [3]) =
      (stA, .err .SessionWasNotClosed) ∧
    execute_effect envLeak stA (.User 5) ⟨0⟩ (.User [2]) =
      (stA, .err .SessionWasNotClosed) := by
  have h := session_not_closed_fails_operation_effect envLeak stA 5 ⟨0⟩ ⟨0⟩
    [3] [2] ⟨0, [5], stA, ⟨[(3, [8])]⟩, []⟩ ⟨0, [5], stA, ⟨[(3, [8])]⟩, []⟩
    ⟨[(1, [42])]⟩ ⟨[]⟩ [descA] rfl rfl rfl rfl rfl (by decide) rfl rfl
    (by decide)
  exact h

/-- Claim C3: whenever a top-level user-path call (operation, effect or
query) completes normally, the application-id call stack at completion
equals exactly `[application_id]`, the single-element stack holding the
originally requested user application id — whatever nested calls the
application performed through the runtime. -/
theorem stack_restored_on_normal_completion :
    (∀ (env : Env) (st : ExecutionStateView) (a : UserApplicationId)
      (cid : ChainId) (action : UserAction) (rs : RuntimeState)
      (res : Except ExecutionError (RawExecutionResult Bytes)),
      invokeAction env st a cid action = .ok (rs, res) →
      ((run_user_action env st a cid action).2).isOk = true →
      rs.application_ids = [a]) ∧
    (∀ (env : Env) (st : ExecutionStateView) (a : UserApplicationId)
      (qctx : QueryContext) (q : Bytes) (rs : RuntimeState)
      (res : Except ExecutionError Bytes),
      invokeQuery env st a qctx q = .ok (rs, res) →
      ((query_application env st (.User a) qctx (.User q)).2).isOk = true →
      rs.application_ids = [a]) := by
  constructor
  · intro env st a cid action rs res hinv hok
    by_contra hne
    unfold run_user_action at hok
    rw [hinv] at hok
    cases res with
    | error e => simp [Outcome.isOk] at hok
    | ok result => simp [Outcome.isOk, hne] at hok
  · intro env st a qctx q rs res hinv hok
    by_contra hne
    by_cases hc : qctx.chain_id = st.chain_id
    · cases res with
      | error e => simp [query_application, hc, hinv, Outcome.isOk] at hok
      | ok r => simp [query_application, hc, hinv, Outcome.isOk, hne] at hok
    · simp [query_application, hc, Outcome.isOk] at hok

/-- Witness for C3: the stacks returned by a concrete operation call and a
concrete query call. -/
theorem stack_restored_on_normal_completion_witness :
    (RuntimeState.mk 0 [5] stA ⟨[]⟩ []).application_ids = [5] ∧
    (RuntimeState.mk 0 [5] stA ⟨[(0, [])]⟩
      [ExecutionResult.User 5 ⟨[(2, [3])]⟩]).application_ids = [5] := by
  constructor
  · exact stack_restored_on_normal_completion.1 envA stA 5 0
      (.Operation ⟨0⟩ [3]) ⟨0, [5], stA, ⟨[]⟩, []⟩ (.ok ⟨[(1, [42])]⟩) rfl rfl
  · exact stack_restored_on_normal_completion.2 envA stA 5 ⟨0⟩ [1]
      ⟨0, [5], stA, ⟨[(0, [])]⟩, [ExecutionResult.User 5 ⟨[(2, [3])]⟩]⟩
      (.ok [7]) rfl rfl

/-- Claim C4: every kind-mismatch combination — `System` id with a `User`
payload, or `User` id with a `System` payload — fails with the entry
point's corresponding `Invalid*` error, and the chain execution state is
returned unchanged in every case. -/
theorem kind_mismatch_invalid_errors (env : Env) (st : ExecutionStateView)
    (octx : OperationContext) (ectx : EffectContext) (qctx : QueryContext)
    (a : UserApplicationId) (sop : Nat) (seff : SystemEffect) (sq : Nat)
    (ub : Bytes)
    (ho : octx.chain_id = st.chain_id) (he : ectx.chain_id = st.chain_id)
    (hq : qctx.chain_id = st.chain_id) :
    execute_operation env st .System octx (.User ub) =
      (st, .err .InvalidOperation) ∧
    execute_operation env st (.User a) octx (.System sop) =
      (st, .err .InvalidOperation) ∧
    execute_effect env st .System ectx (.User ub) =
      (st, .err .InvalidEffect) ∧
    execute_effect env st (.User a) ectx (.System seff) =
      (st, .err .InvalidEffect) ∧
    query_application env st .System qctx (.User ub) =
      (st, .err .InvalidQuery) ∧
    query_application env st (.User a) qctx (.System sq) =
      (st, .err .InvalidQuery) := by
  unfold execute_operation execute_effect query_application
  simp [ho, he, hq]

/-- Witness for C4: all six mismatch combinations at a concrete state. -/
theorem kind_mismatch_invalid_errors_witness :
    execute_operation envA stA .System ⟨0⟩ (.User [1]) =
      (stA, .err .InvalidOperation) ∧
    execute_operation envA stA (.User 5) ⟨0⟩ (.System 0) =
      (stA, .err .InvalidOperation) ∧
    execute_effect envA stA .System ⟨0⟩ (.User [1]) =
      (stA, .err .InvalidEffect) ∧
    execute_effect envA stA (.User 5) ⟨0⟩ (.System (.Other 0)) =
      (stA, .err .InvalidEffect) ∧
    query_application envA stA .System ⟨0⟩ (.User [1]) =
      (stA, .err .InvalidQuery) ∧
    query_application envA stA (.User 5) ⟨0⟩ (.System 0) =
      (stA, .err .InvalidQuery) :=
  kind_mismatch_invalid_errors envA stA ⟨0⟩ ⟨0⟩ ⟨0⟩ 5 0 (.Other 0) 0 [1]
    rfl rfl rfl

/-- Claim C5: a (System, System) operation reporting a newly created
application id yields the system result followed immediately by the results
of the new application's `Initialize` action; with no new application id,
exactly the single system result. -/
theorem system_operation_initialization_cascade (env : Env)
    (st : ExecutionStateView) (octx : OperationContext) (op sys1 : Nat)
    (result : RawExecutionResult SystemEffect) (new_id : UserApplicationId)
    (st2 : ExecutionStateView) (rs : List ExecutionResult)
    (hchain : octx.chain_id = st.chain_id) :
    (env.system_execute_operation octx op st.system =
        (sys1, .ok (result, none)) →
      execute_operation env st .System octx (.System op) =
        ({ st with system := sys1 }, .ok [ExecutionResult.System result])) ∧
    (env.system_execute_operation octx op st.system =
        (sys1, .ok (result, some new_id)) →
      run_user_action env { st with system := sys1 } new_id octx.chain_id
        (.Initialize octx) = (st2, .ok rs) →
      execute_operation env st .System octx (.System op) =
        (st2, .ok (ExecutionResult.System result :: rs))) := by
  constructor
  · intro hsys
    simp [execute_operation, hchain, hsys]
  · intro hsys hrun
    rw [hchain] at hrun
    simp [execute_operation, hchain, hsys, hrun]

/-- Witness for C5: both the no-spawn and the spawn case at a concrete
environment (system operation `100` creates application `5`). -/
theorem system_operation_initialization_cascade_witness :
    execute_operation envA stA .System ⟨0⟩ (.System 0) =
      ({ stA with system := 1 },
        .ok [ExecutionResult.System ⟨[(0, SystemEffect.Other 0)]⟩]) ∧
    execute_operation envA stA .System ⟨0⟩ (.System 100) =
      ({ stA with system := 1 },
        .ok [ExecutionResult.System ⟨[(0, SystemEffect.Other 100)]⟩,
          ExecutionResult.User 5 ⟨[]⟩]) := by
  constructor
  · exact (system_operation_initialization_cascade envA stA ⟨0⟩ 0 1
      ⟨[(0, SystemEffect.Other 0)]⟩ 0 stA [] rfl).1 rfl
  · exact (system_operation_initialization_cascade envA stA ⟨0⟩ 100 1
      ⟨[(0, SystemEffect.Other 100)]⟩ 5 { stA with system := 1 }
      [ExecutionResult.User 5 ⟨[]⟩] rfl).2 rfl rfl

/-- Claim C6: a call whose context chain id differs from the executing
state's chain id never returns a normal result — each entry point hits the
`assert_eq!` and ends fatally, for any application id and payload. -/
theorem chain_id_mismatch_fatal (env : Env) (st : ExecutionStateView)
    (aid aid2 aid3 : ApplicationId) (octx : OperationContext)
    (ectx : EffectContext) (qctx : QueryContext) (op : Operation)
    (eff : Effect) (q : Query)
    (ho : octx.chain_id ≠ st.chain_id) (he : ectx.chain_id ≠ st.chain_id)
    (hq : qctx.chain_id ≠ st.chain_id) :
    execute_operation env st aid octx op = (st, .fatal) ∧
    execute_effect env st aid2 ectx eff = (st, .fatal) ∧
    query_application env st aid3 qctx q = (st, .fatal) := by
  unfold execute_operation execute_effect query_application
  simp [ho, he, hq]

/-- Witness for C6: context on chain `1` against state on chain `0`. -/
theorem chain_id_mismatch_fatal_witness :
    execute_operation envA stA (.User 5) ⟨1⟩ (.User [3]) = (stA, .fatal) ∧
    execute_effect envA stA (.User 5) ⟨1⟩ (.User [2]) = (stA, .fatal) ∧
    query_application envA stA (.User 5) ⟨1⟩ (.User [1]) = (stA, .fatal) :=
  chain_id_mismatch_fatal envA stA (.User 5) (.User 5) (.User 5) ⟨1⟩ ⟨1⟩ ⟨1⟩
    (.User [3]) (.User [2]) (.User [1]) (by decide) (by decide) (by decide)

/-- Claim C7: an erroring `run_user_action` contributes nothing to the
externally-visible result sequence: in the initialization-cascade path the
already-computed system result is discarded along with the rest, and in the
user-operation path the error propagates with no results. -/
theorem error_discards_results (env : Env) (st : ExecutionStateView)
    (octx : OperationContext) (op sys1 : Nat)
    (result : RawExecutionResult SystemEffect) (new_id a : UserApplicationId)
    (b : Bytes) (st2 st3 : ExecutionStateView) (e e2 : ExecutionError)
    (hchain : octx.chain_id = st.chain_id)
    (hsys : env.system_execute_operation octx op st.system =
      (sys1, .ok (result, some new_id)))
    (hrun : run_user_action env { st with system := sys1 } new_id
      octx.chain_id (.Initialize octx) = (st2, .err e))
    (hrun2 : run_user_action env st a octx.chain_id
      (.Operation octx b) = (st3, .err e2)) :
    execute_operation env st .System octx (.System op) = (st2, .err e) ∧
    execute_operation env st (.User a) octx (.User b) = (st3, .err e2) := by
  constructor
  · rw [hchain] at hrun
    simp [execute_operation, hchain, hsys, hrun]
  · rw [hchain] at hrun2
    simp [execute_operation, hchain, hrun2]

/-- Witness for C7: an environment whose application fails at every entry
point; the cascade discards the system result. -/
theorem error_discards_results_witness :
    execute_operation envFail stA .System ⟨0⟩ (.System 100) =
      ({ stA with system := 1 }, .err (.UserError 3)) ∧
    execute_operation envFail stA (.User 5) ⟨0⟩ (.User [3]) =
      (stA, .err (.UserError 3)) :=
  error_discards_results envFail stA ⟨0⟩ 100 1
    ⟨[(0, SystemEffect.Other 100)]⟩ 5 5 [3] { stA with system := 1 } stA
    (.UserError 3) (.UserError 3) rfl rfl rfl rfl

/-- Claim C8 (scenario): chain `0` hosts user application `5` with no
dependencies; an operation targeting `5` makes it emit exactly one effect to
chain `1` and open no session; `execute_operation` returns exactly
`[System{effects:[(1, RegisterApplications{applications:[descA]})]},
User(5, {effects:[(1, [42])]})]`, in that order. -/
theorem scenario_single_effect_output :
    execute_operation envA stA (.User 5) ⟨0⟩ (.User [3]) =
      (stA, .ok [ExecutionResult.System
          ⟨[(1, SystemEffect.RegisterApplications [descA])]⟩,
        ExecutionResult.User 5 ⟨[(1, [42])]⟩]) :=
  rfl

/-- Claim C9: a successful user query returns exactly `Response.User`
wrapping the bytes the application's query entry point returned; the results
accumulator allocated for the call — whatever effects or sub-results the
application appended to it — never appears in the output. -/
theorem query_returns_user_response (env : Env) (st : ExecutionStateView)
    (a : UserApplicationId) (qctx : QueryContext) (q : Bytes)
    (rs : RuntimeState) (resp : Bytes)
    (hchain : qctx.chain_id = st.chain_id)
    (hinv : invokeQuery env st a qctx q = .ok (rs, .ok resp))
    (hstack : rs.application_ids = [a]) :
    query_application env st (.User a) qctx (.User q) =
      (rs.state, .ok (Response.User resp)) := by
  simp [query_application, hchain, hinv, hstack]

/-- Witness for C9: the concrete query appends a sub-result to the
accumulator and opens a session; the output is still only the response. -/
theorem query_returns_user_response_witness :
    query_application envA stA (.User 5) ⟨0⟩ (.User [6]) =
      (stA, .ok (Response.User [7])) := by
  have h := query_returns_user_response envA stA 5 ⟨0⟩ [6]
    ⟨0, [5], stA, ⟨[(0, [])]⟩, [ExecutionResult.User 5 ⟨[(2, [3])]⟩]⟩ [7]
    rfl rfl rfl
  exact h

/-- Claim C10: the synthesized `System` result contains exactly as many
`RegisterApplications` effects as the user result contains effects, with
destinations equal position by position to the user effects' destinations,
all carrying the identical full dependency list — also when several user
effects share a destination. -/
theorem system_result_matches_user_effects (env : Env)
    (st : ExecutionStateView) (a : UserApplicationId) (cid : ChainId)
    (action : UserAction) (rs : RuntimeState)
    (result : RawExecutionResult Bytes) (apps : List ApplicationDescription)
    (hinv : invokeAction env st a cid action = .ok (rs, .ok result))
    (hstack : rs.application_ids = [a])
    (hdeps : env.describe_application_with_dependencies a = .ok apps)
    (hsess : rs.session_manager.states = []) :
    run_user_action env st a cid action =
      (rs.state, .ok ((if result.effects.isEmpty then rs.results
        else rs.results ++ [ExecutionResult.System
          ⟨result.effects.map (fun p =>
            (p.1, SystemEffect.RegisterApplications apps))⟩])
        ++ [ExecutionResult.User a result])) ∧
    (result.effects.map (fun p =>
      (p.1, SystemEffect.RegisterApplications apps))).length =
      result.effects.length ∧
    ∀ i : Nat,
      (result.effects.map (fun p =>
        (p.1, SystemEffect.RegisterApplications apps)))[i]? =
      (result.effects[i]?).map (fun p =>
        (p.1, SystemEffect.RegisterApplications apps)) := by
  refine ⟨run_user_action_ok env st a cid action rs result apps
    hinv hstack hdeps hsess, List.length_map result.effects _, ?_⟩
  intro i
  simp [List.getElem?_map]

/-- Witness for C10: two effects to the same destination each get their own
`RegisterApplications` effect with the identical dependency list. -/
theorem system_result_matches_user_effects_witness :
    run_user_action envA stA 5 0 (.Operation ⟨0⟩ [4]) =
      (stA, .ok [ExecutionResult.System
          ⟨[(1, SystemEffect.RegisterApplications [descA])]⟩,
        ExecutionResult.User 5 ⟨[(1, [42])]⟩]) ∧
    ([(1, [42])] : List (Destination × Bytes)).length = 1 := by
  have h := system_result_matches_user_effects envA stA 5 0
    (.Operation ⟨0⟩ [4]) ⟨0, [5], stA, ⟨[]⟩, []⟩ ⟨[(1, [42])]⟩ [descA]
    rfl rfl rfl rfl
  exact ⟨by simpa using h.1, rfl⟩
